import Mathlib

/-!
Verification of the dataset-to-summary pipeline and markup renderer of the
report-generator application (src/src/App.tsx).

The embedding models:
  - JavaScript scalar cell values produced by the external parsers
    (`Scalar`, with `Option Scalar` for nullable cells);
  - the column type inference `analyzeDataTypes` (App.tsx lines 176-194);
  - the `dataSummary` construction inside `analyzeData` (lines 105-111);
  - the markup renderer `marked` (lines 239-248), a chain of global
    regex-style replacements, embedded as character-list transformations;
  - the component state (`AppState`) and the two state-transition handlers
    `handleFileUpload` (lines 44-93) and `analyzeData` (lines 95-174).

External collaborators (the PapaParse CSV parser, the XLSX workbook decoder,
and the network exchange with the generation service) are modelled as
abstract outcomes supplied as inputs, exactly at the call boundaries where
the source hands control to them.
-/

namespace ReportGen

/-- JavaScript scalar cell values as produced by the external parsers:
a number, a string, or a boolean.  JS `null` and `undefined` cells are both
modelled as `none` in `Option Scalar`; the source treats them identically
(both are removed by the `v != null` filter and neither reaches any other
operation on cell values). -/
inductive Scalar where
  | num (n : Int)
  | str (s : String)
  | boolVal (b : Bool)
deriving DecidableEq

/-- A row record: an association of column names to nullable cell values.
A missing key (JS `undefined` on property access) and a stored `null` are
both read back as `none` by `rowGet`. -/
abbrev Row := List (String × Option Scalar)

/-- Property access `row[header]`: a stored cell, or `none` when the key is
absent (JS `undefined`). -/
def rowGet (row : Row) (header : String) : Option Scalar :=
  (row.lookup header).getD none

/-- JavaScript ToString coercion applied to a sample value, as performed
implicitly by `Date.parse(sample)` in the source: `undefined` prints as
"undefined", booleans as "true"/"false", numbers as their decimal text. -/
def jsToString : Option Scalar → String
  | none => "undefined"
  | some (.num n) => toString n
  | some (.str s) => s
  | some (.boolVal b) => if b then "true" else "false"

/-- The test `typeof sample === "number"` from App.tsx line 185. -/
def isNumber : Option Scalar → Bool
  | some (.num _) => true
  | _ => false

/-- Split a character list at every occurrence of `sep`, like the JS
`String.prototype.split` with a one-character separator: the empty list
yields `[[]]`, and adjacent separators yield empty fields. -/
def splitChar (sep : Char) : List Char → List (List Char)
  | [] => [[]]
  | c :: rest =>
    if c = sep then [] :: splitChar sep rest
    else
      match splitChar sep rest with
      | [] => [[c]]
      | l :: ls => (c :: l) :: ls

/-- Decimal digit test on a character. -/
def isDigitC (c : Char) : Bool := 48 ≤ c.toNat && c.toNat ≤ 57

/-- All characters are decimal digits. -/
def allDigits (l : List Char) : Bool := l.all isDigitC

/-- Numeric value of an all-digit field. -/
def digitsVal (l : List Char) : Nat :=
  l.foldl (fun n c => n * 10 + (c.toNat - 48)) 0

/-- Gregorian leap-year rule used by the calendar date validity check. -/
def isLeapYear (y : Nat) : Bool :=
  (y % 4 == 0 && y % 100 != 0) || y % 400 == 0

/-- Number of days of month `m` (1-12) in year `y`. -/
def daysInMonth (y m : Nat) : Nat :=
  if m == 1 || m == 3 || m == 5 || m == 7 || m == 8 || m == 10 || m == 12 then 31
  else if m == 4 || m == 6 || m == 9 || m == 11 then 30
  else if isLeapYear y then 29 else 28

/-- A four-digit year field. -/
def isYearField (y : List Char) : Bool := y.length == 4 && allDigits y

/-- A two-digit numeric field. -/
def isTwoDigit (s : List Char) : Bool := s.length == 2 && allDigits s

/-- Model of the ECMAScript test `!isNaN(Date.parse(s))` on a string `s`,
restricted to the ISO 8601 calendar-date forms (`YYYY`, `YYYY-MM`,
`YYYY-MM-DD`) whose acceptance ECMA-262 mandates, with out-of-range month
or day rejected.  Host-specific fallback heuristics for other string shapes
are not modelled; no claim depends on such strings.  On non-date text such
as "", "bad", "true", "false" or "undefined" this is `false`, as in every
conforming engine. -/
def jsDateParse (s : String) : Bool :=
  match splitChar '-' s.toList with
  | [y] => isYearField y
  | [y, m] =>
      isYearField y && isTwoDigit m && decide (1 ≤ digitsVal m ∧ digitsVal m ≤ 12)
  | [y, m, d] =>
      isYearField y && isTwoDigit m && decide (1 ≤ digitsVal m ∧ digitsVal m ≤ 12) &&
      isTwoDigit d &&
      decide (1 ≤ digitsVal d ∧ digitsVal d ≤ daysInMonth (digitsVal y) (digitsVal m))
  | _ => false

/-- Body of the per-header loop of `analyzeDataTypes` (App.tsx lines
181-191): collect the column's values, drop nulls (`v != null`), take the
first remaining value (`values[0]`, which is `undefined` when the filtered
array is empty), and classify it: a native number is "numeric", else a
value whose string coercion date-parses is "date", else "text". -/
def inferredType (dateParseOk : String → Bool) (data : List Row)
    (header : String) : String :=
  let values := (data.map fun row => rowGet row header).filterMap fun v => v
  let sample : Option Scalar := values.head?
  if isNumber sample then "numeric"
  else if dateParseOk (jsToString sample) then "date"
  else "text"

/-- Column type inference, `analyzeDataTypes` from App.tsx lines 176-194:
each header is associated to the classification of its first non-null
sample.  The host's `Date.parse` non-NaN test is the parameter
`dateParseOk` (instantiated with `jsDateParse` for concrete evaluation). -/
def analyzeDataTypes (dateParseOk : String → Bool) (data : List Row)
    (headers : List String) : List (String × String) :=
  headers.map fun header => (header, inferredType dateParseOk data header)

/-- Spec-side notion, from the claim's words: "the first non-null value of
that column taken in row order". -/
def specFirstNonNull (data : List Row) (header : String) : Option Scalar :=
  data.findSome? fun row => rowGet row header

/-- Spec-side classification, from the claim's words: a numeric native kind
is "numeric"; otherwise a value that parses as a calendar date is "date",
else "text"; a column with no non-null value is "text" by default. -/
def specClassify (dateParseOk : String → Bool) : Option Scalar → String
  | some (.num _) => "numeric"
  | none => "text"
  | some v => if dateParseOk (jsToString (some v)) then "date" else "text"

/-! Markup renderer, `marked` from App.tsx lines 239-248: seven chained
global replacements.  Each is embedded as a character-list transformation
with the exact left-to-right, leftmost-match semantics of
`String.prototype.replace` with a global regex. -/

/-- Join lines back with a newline separator (inverse of `splitChar '\n'`
on well-formed output). -/
def joinNl : List (List Char) → List Char
  | [] => []
  | [l] => l
  | l :: ls => l ++ '\n' :: joinNl ls

/-- One line of a heading pass `^MARKER (.*$)` with the `m` flag: a line
beginning with the marker and one space is rewritten to the tagged form
with marker and that one space stripped; other lines are unchanged. -/
def headingLine (marker openTag closeTag line : List Char) : List Char :=
  if (marker ++ [' ']).isPrefixOf line then
    openTag ++ line.drop (marker.length + 1) ++ closeTag
  else line

/-- A whole heading replacement pass: with the `m` flag, `^`/`$` anchor at
line boundaries, so the global replace acts independently on each
newline-separated line. -/
def headingPass (marker openTag closeTag : List Char) (s : List Char) : List Char :=
  joinNl ((splitChar '\n' s).map (headingLine marker openTag closeTag))

/-- Search for the earliest closing occurrence of `delim`, as the lazy
`(.*?)` followed by the delimiter does: returns the content before it and
the remainder after it, or `none` when a newline (which `.` cannot match)
or the end of input is reached first. -/
def findClose (delim : List Char) : List Char → Option (List Char × List Char)
  | [] => none
  | c :: rest =>
    if delim.isPrefixOf (c :: rest) then some ([], (c :: rest).drop delim.length)
    else if c = '\n' then none
    else (findClose delim rest).map fun p => (c :: p.1, p.2)

/-- Fuelled scan of a delimiter-pair replacement `DELIM(.*?)DELIM`: at each
position, if the delimiter starts here and a closing delimiter follows on
the same line, the whole match is rewritten and scanning resumes after it;
otherwise one character is emitted and scanning advances, exactly as the
regex engine advances on a failed match.  The fuel only makes the recursion
structural: every step consumes at least one input character, so any fuel
of at least the input length is never exhausted. -/
def replDelimF (delim openTag closeTag : List Char) : Nat → List Char → List Char
  | _, [] => []
  | 0, l => l
  | fuel + 1, c :: rest =>
    if delim.isPrefixOf (c :: rest) then
      match findClose delim ((c :: rest).drop delim.length) with
      | some (content, rest') =>
        openTag ++ content ++ closeTag ++ replDelimF delim openTag closeTag fuel rest'
      | none => c :: replDelimF delim openTag closeTag fuel rest
    else c :: replDelimF delim openTag closeTag fuel rest

/-- Delimiter-pair replacement pass with adequate fuel. -/
def replDelim (delim openTag closeTag : List Char) (s : List Char) : List Char :=
  replDelimF delim openTag closeTag s.length s

/-- Paragraph pass: each (leftmost, non-overlapping) occurrence of two
consecutive newlines becomes "</p><p>". -/
def parRepl : List Char → List Char
  | [] => []
  | [c] => [c]
  | c1 :: c2 :: rest =>
    if c1 = '\n' ∧ c2 = '\n' then "</p><p>".toList ++ parRepl rest
    else c1 :: parRepl (c2 :: rest)

/-- Line-break pass: every remaining newline becomes "<br>". -/
def brRepl : List Char → List Char
  | [] => []
  | c :: rest => (if c = '\n' then "<br>".toList else [c]) ++ brRepl rest

/-- The renderer `marked` from App.tsx lines 239-248: heading passes for
"###", "##", "#" in that order, then double-star strong emphasis, then
single-star italic emphasis, then paragraph boundaries, then line breaks,
each pass operating on the output of the previous one. -/
def marked (text : String) : String :=
  let s := text.toList
  let s := headingPass ['#', '#', '#'] "<h3>".toList "</h3>".toList s
  let s := headingPass ['#', '#'] "<h2>".toList "</h2>".toList s
  let s := headingPass ['#'] "<h1>".toList "</h1>".toList s
  let s := replDelim ['*', '*'] "<strong>".toList "</strong>".toList s
  let s := replDelim ['*'] "<em>".toList "</em>".toList s
  let s := parRepl s
  let s := brRepl s
  String.mk s

/-- Spec-side notion, from the claim's words: "a paragraph-wrapped copy of
the input". -/
def specParagraphWrapped (s : String) : String := "<p>" ++ s ++ "</p>"

/-! Component state and handlers. -/

/-- The component state: the React `useState` slots of
`DataAnalysisReportGenerator` that the handlers read or write (the raw
`file` object is stored but never observed beyond a debug log, and is
omitted). -/
structure AppState where
  fileName : String
  data : Option (List Row)
  headers : List String
  isAnalyzing : Bool
  report : Option String
  error : Option String
  regeneratePrompt : String
deriving DecidableEq

/-- ASCII lowercasing of one character (the extension strings compared
against are ASCII, so the ASCII fragment of `toLowerCase` suffices). -/
def toLowerC (c : Char) : Char :=
  if 65 ≤ c.toNat ∧ c.toNat ≤ 90 then Char.ofNat (c.toNat + 32) else c

/-- Extension extraction from App.tsx line 56:
`name.split(".").pop()?.toLowerCase()` — the part after the last dot
(the whole name when it has no dot), lowercased. -/
def fileExtension (name : String) : String :=
  String.mk (((splitChar '.' name.toList).getLastD []).map toLowerC)

/-- Outcome of the external CSV path on the uploaded content: the
synchronous PapaParse `complete` callback (with the possibly-undefined
`results.meta.fields` and the parsed row records), its `error` callback, or
an exception raised while reading the file text. -/
inductive CsvOutcome where
  | complete (fields : Option (List String)) (rows : List Row)
  | parseError (msg : String)
  | readFailure (msg : String)
deriving DecidableEq

/-- Outcome of the external spreadsheet path on the uploaded content: the
first sheet converted to row records by `XLSX.utils.sheet_to_json` (missing
cells already defaulted to null), or an exception raised while reading or
decoding the binary container. -/
inductive SheetOutcome where
  | sheetRows (rows : List Row)
  | readFailure (msg : String)
deriving DecidableEq

/-- Behaviour of the external parsers on one uploaded file's content:
whichever branch the handler takes observes the corresponding outcome. -/
structure FileData where
  csv : CsvOutcome
  sheet : SheetOutcome
deriving DecidableEq

/-- The upload handler `handleFileUpload` from App.tsx lines 44-93.
`none` models an event with no selected file (the early return).  With a
file, the handler first stores the file name and clears the error and the
report, then branches on the lowercased extension: "csv" feeds the text to
the CSV parser (its callbacks set headers and data, or the error); "xlsx"
or "xls" decodes the first sheet and installs it only when it yields at
least one row record; any other extension sets the unsupported-format
error.  Exceptions from reading or decoding set the reading error. -/
def handleFileUpload (st : AppState) (upload : Option (String × FileData)) : AppState :=
  match upload with
  | none => st
  | some (name, fd) =>
    let st1 := { st with fileName := name, error := none, report := none }
    let ext := fileExtension name
    if ext = "csv" then
      match fd.csv with
      | .complete fields rows => { st1 with headers := fields.getD [], data := some rows }
      | .parseError m => { st1 with error := some ("Error parsing CSV: " ++ m) }
      | .readFailure m => { st1 with error := some ("Error reading file: " ++ m) }
    else if ext = "xlsx" ∨ ext = "xls" then
      match fd.sheet with
      | .sheetRows jsonData =>
        if jsonData.length > 0 then
          { st1 with headers := (jsonData.head?.getD []).map Prod.fst,
                     data := some jsonData }
        else st1
      | .readFailure m => { st1 with error := some ("Error reading file: " ++ m) }
    else
      { st1 with error := some "Please upload a CSV, XLS, or XLSX file" }

/-- The `DataSummary` record of App.tsx lines 19-25. -/
structure DataSummary where
  fileName : String
  rowCount : Nat
  columns : List String
  sampleData : List Row
  dataTypes : List (String × String)
deriving DecidableEq

/-- The `dataSummary` construction from App.tsx lines 105-111: full row
count, the column list, the first five rows (`data.slice(0, 5)`) as the
sample, and the inferred column types. -/
def mkDataSummary (dateParseOk : String → Bool) (fileName : String)
    (data : List Row) (headers : List String) : DataSummary :=
  { fileName := fileName
    rowCount := data.length
    columns := headers
    sampleData := data.take 5
    dataTypes := analyzeDataTypes dateParseOk data headers }

/-- One segment of the generation service's response content array
(interface `ClaudeResponse` at App.tsx lines 27-32). -/
structure ContentBlock where
  blockType : String
  text : String
deriving DecidableEq

/-- Outcome of the network exchange with the generation service: a parsed
response whose `content` field may be absent (`none`), present but empty,
or carry blocks; or an exception from the transport or JSON decoding. -/
inductive NetOutcome where
  | response (content : Option (List ContentBlock))
  | throwsErr (msg : String)
deriving DecidableEq

/-- The analysis handler `analyzeData` from App.tsx lines 95-174.  With no
dataset or an empty one it only sets the no-data error.  Otherwise it
builds the data summary and the prompts (the summary construction is
retained; the prompt strings themselves drive no state transition), runs
the exchange, and on a response with a first content block stores the
report text and clears the refinement directive; on a response without a
usable block it sets the generation-failure error; on an exception it sets
the analysis error.  The in-flight flag is raised before and lowered after
the exchange. -/
def analyzeData (dateParseOk : String → Bool) (st : AppState)
    (isRegenerate : Bool) (net : NetOutcome) : AppState :=
  match st.data with
  | none => { st with error := some "No data to analyze" }
  | some d =>
    if d.length = 0 then { st with error := some "No data to analyze" }
    else
      let st1 := { st with isAnalyzing := true, error := none }
      let _dataSummary := mkDataSummary dateParseOk st.fileName d st.headers
      let _isRegenerate := isRegenerate
      let st2 :=
        match net with
        | .response content =>
          match content with
          | some (b :: _) => { st1 with report := some b.text, regeneratePrompt := "" }
          | _ => { st1 with error := some "Failed to generate report" }
        | .throwsErr m => { st1 with error := some ("Analysis error: " ++ m) }
      { st2 with isAnalyzing := false }

/-- Example state with a previously loaded dataset, report, error, and a
pending refinement directive, used by the concrete witnesses. -/
def exState : AppState :=
  { fileName := "prev.csv"
    data := some [[("c", some (.num 1))]]
    headers := ["c"]
    isAnalyzing := false
    report := some "old report"
    error := some "old error"
    regeneratePrompt := "focus on cost trends" }

/-- Example parser behaviour used by the concrete witnesses. -/
def exFileData : FileData :=
  { csv := .complete (some ["a"]) [[("a", some (.num 2))]]
    sheet := .sheetRows [[("a", some (.num 2))]] }

/-- Example parser behaviour whose first sheet yields zero row records. -/
def exFileDataEmptySheet : FileData :=
  { csv := .parseError "unused", sheet := .sheetRows [] }

/-! Helper lemmas. -/

/-- Looking up a key present in a keyed map image finds its image. -/
theorem lookup_map_self {β : Type} (f : String → β) (headers : List String)
    (h : String) (hmem : h ∈ headers) :
    List.lookup h (headers.map fun x => (x, f x)) = some (f h) := by
  induction headers with
  | nil => cases hmem
  | cons a tl ih =>
    by_cases hcase : h = a
    · subst hcase
      simp [List.lookup]
    · have hne : (h == a) = false := beq_eq_false_iff_ne.mpr hcase
      have hmem' : h ∈ tl := by
        rcases List.mem_cons.mp hmem with rfl | hm
        · exact absurd rfl hcase
        · exact hm
      simpa [List.lookup, hne] using ih hmem'

/-- The head of the null-filtered column equals the first non-null value in
row order. -/
theorem head_filterMap_findSome (g : Row → Option Scalar) (data : List Row) :
    ((data.map g).filterMap (fun v => v)).head? = data.findSome? g := by
  induction data with
  | nil => rfl
  | cons r t ih =>
    cases hr : g r with
    | none =>
      simp only [List.map_cons, List.filterMap_cons, hr, List.findSome?_cons]
      exact ih
    | some v =>
      simp only [List.map_cons, List.filterMap_cons, hr, List.findSome?_cons,
        List.head?_cons]

/-- The inferred type of a column is the code's classification of the first
non-null value in row order. -/
theorem inferredType_eq_sample (dp : String → Bool) (data : List Row) (h : String) :
    inferredType dp data h =
      (if isNumber (specFirstNonNull data h) then "numeric"
       else if dp (jsToString (specFirstNonNull data h)) then "date"
       else "text") := by
  simp only [inferredType, specFirstNonNull]
  rw [head_filterMap_findSome]

/-- Looking up a header of the inferred type map yields its inferred type. -/
theorem analyzeDataTypes_lookup (dp : String → Bool) (data : List Row)
    (headers : List String) (h : String) (hmem : h ∈ headers) :
    List.lookup h (analyzeDataTypes dp data headers) = some (inferredType dp data h) := by
  unfold analyzeDataTypes
  exact lookup_map_self (fun x => inferredType dp data x) headers h hmem

/-! Claim theorems. -/

/-- C1: type inference classifies each column from only the first non-null
value of that column taken in row order — a numeric native kind classifies
"numeric", otherwise a value that parses as a calendar date classifies
"date", otherwise "text", and a column with no non-null value is "text" by
default (the date-parse of the undefined sample evaluates without failure
to a non-date, which is the hypothesis on the date-parse oracle at the
string coercion "undefined" of the undefined sample). -/
theorem typeInference_first_nonnull_classification
    (dp : String → Bool) (hdp : dp "undefined" = false)
    (data : List Row) (headers : List String) :
    (analyzeDataTypes dp data headers).map Prod.fst = headers ∧
    ∀ h ∈ headers,
      List.lookup h (analyzeDataTypes dp data headers) =
        some (specClassify dp (specFirstNonNull data h)) := by
  constructor
  · unfold analyzeDataTypes
    rw [List.map_map]
    exact List.map_id headers
  · intro h hmem
    rw [analyzeDataTypes_lookup dp data headers h hmem, inferredType_eq_sample]
    cases hs : specFirstNonNull data h with
    | none => simp [isNumber, jsToString, hdp, specClassify]
    | some v => cases v <;> simp [isNumber, jsToString, specClassify]

/-- Witness for C1 at a concrete one-column dataset. -/
theorem typeInference_first_nonnull_classification_witness :
    jsDateParse "undefined" = false ∧
    List.lookup "a"
        (analyzeDataTypes jsDateParse [[("a", some (.str "2023-01-01"))]] ["a"]) =
      some (specClassify jsDateParse
        (specFirstNonNull [[("a", some (.str "2023-01-01"))]] "a")) :=
  ⟨by decide,
   (typeInference_first_nonnull_classification jsDateParse (by decide)
      [[("a", some (.str "2023-01-01"))]] ["a"]).2 "a" (by decide)⟩

/-- C2 counterexample: on a column with the values ["", null, "5", "6"] the
code classifies "text", not "numeric" as claimed — the first non-null value
is the empty string, whose native kind is not numeric and which does not
parse as a date. -/
theorem typeInference_empty_string_counterexample :
    analyzeDataTypes jsDateParse
        [[("c", some (.str ""))], [("c", none)],
         [("c", some (.str "5"))], [("c", some (.str "6"))]] ["c"] =
      [("c", "text")] ∧
    analyzeDataTypes jsDateParse
        [[("c", some (.str ""))], [("c", none)],
         [("c", some (.str "5"))], [("c", some (.str "6"))]] ["c"] ≠
      [("c", "numeric")] := by
  decide

/-- C2 (amended): type inference is deterministic and depends only on the
first non-null value encountered per column; on a column ["", null, "5",
"6"] it returns "text" (the first non-null value is the empty string), on
a column [null, null] it returns "text", and on a column ["2023-01-01",
"bad"] it returns "date". -/
theorem typeInference_examples_amended :
    (∀ (dp : String → Bool) (data data' : List Row)
        (headers headers' : List String) (h : String),
        h ∈ headers → h ∈ headers' →
        specFirstNonNull data h = specFirstNonNull data' h →
        List.lookup h (analyzeDataTypes dp data headers) =
          List.lookup h (analyzeDataTypes dp data' headers')) ∧
    analyzeDataTypes jsDateParse
        [[("c", some (.str ""))], [("c", none)],
         [("c", some (.str "5"))], [("c", some (.str "6"))]] ["c"] =
      [("c", "text")] ∧
    analyzeDataTypes jsDateParse [[("c", none)], [("c", none)]] ["c"] =
      [("c", "text")] ∧
    analyzeDataTypes jsDateParse
        [[("c", some (.str "2023-01-01"))], [("c", some (.str "bad"))]] ["c"] =
      [("c", "date")] := by
  refine ⟨?_, by decide, by decide, by decide⟩
  intro dp data data' headers headers' h hm hm' hsame
  rw [analyzeDataTypes_lookup dp data headers h hm,
      analyzeDataTypes_lookup dp data' headers' h hm',
      inferredType_eq_sample, inferredType_eq_sample, hsame]

/-- C3: the summarizer's sample is exactly the first min(5, rowCount) rows
of the dataset in order (3 rows for a 3-row dataset, 5 for a 100-row
dataset), its row count is the full dataset size, and building the summary
leaves the dataset, the column list and the file name unobservably
unchanged — the summary's fields are the unchanged inputs, and the analysis
handler that builds it never alters the stored dataset, headers or file
name. -/
theorem dataSummary_sample_and_purity (dp : String → Bool) (fn : String)
    (data : List Row) (headers : List String) :
    (mkDataSummary dp fn data headers).sampleData = data.take 5 ∧
    (mkDataSummary dp fn data headers).sampleData.length = min 5 data.length ∧
    (mkDataSummary dp fn data headers).rowCount = data.length ∧
    (mkDataSummary dp fn data headers).fileName = fn ∧
    (mkDataSummary dp fn data headers).columns = headers ∧
    (data.length = 3 → (mkDataSummary dp fn data headers).sampleData.length = 3) ∧
    (data.length = 100 → (mkDataSummary dp fn data headers).sampleData.length = 5) ∧
    (∀ (st : AppState) (isReg : Bool) (net : NetOutcome),
        (analyzeData dp st isReg net).data = st.data ∧
        (analyzeData dp st isReg net).headers = st.headers ∧
        (analyzeData dp st isReg net).fileName = st.fileName) := by
  have hlen : (mkDataSummary dp fn data headers).sampleData.length = min 5 data.length := by
    show (data.take 5).length = min 5 data.length
    simp
  refine ⟨rfl, hlen, rfl, rfl, rfl, ?_, ?_, ?_⟩
  · intro h3; rw [hlen, h3]; decide
  · intro h100; rw [hlen, h100]; decide
  · intro st isReg net
    cases hd : st.data with
    | none => simp [analyzeData, hd]
    | some d =>
      by_cases hl : d.length = 0
      · simp [analyzeData, hd, hl]
      · cases net with
        | response content =>
          cases content with
          | none => simp [analyzeData, hd, hl]
          | some blocks => cases blocks <;> simp [analyzeData, hd, hl]
        | throwsErr m => simp [analyzeData, hd, hl]

/-- Witness for C3 at a 3-row and a 100-row dataset and a concrete analysis
call. -/
theorem dataSummary_sample_and_purity_witness :
    (mkDataSummary jsDateParse "f.csv" (List.replicate 3 ([] : Row)) []).sampleData.length = 3 ∧
    (mkDataSummary jsDateParse "f.csv" (List.replicate 100 ([] : Row)) []).sampleData.length = 5 ∧
    (analyzeData jsDateParse exState false (.response none)).data = exState.data :=
  ⟨(dataSummary_sample_and_purity jsDateParse "f.csv" (List.replicate 3 ([] : Row))
      []).2.2.2.2.2.1 (by decide),
   (dataSummary_sample_and_purity jsDateParse "f.csv" (List.replicate 100 ([] : Row))
      []).2.2.2.2.2.2.1 (by decide),
   ((dataSummary_sample_and_purity jsDateParse "f.csv" [] []).2.2.2.2.2.2.2 exState false
      (.response none)).1⟩

/-- Witness for C2 at two concrete datasets sharing the first non-null
value of column "c". -/
theorem typeInference_examples_amended_witness :
    ("c" ∈ (["c"] : List String)) ∧
    specFirstNonNull [[("c", some (.str "7"))]] "c" =
      specFirstNonNull [[("c", none)], [("c", some (.str "7"))], [("c", some (.num 3))]] "c" ∧
    List.lookup "c" (analyzeDataTypes jsDateParse [[("c", some (.str "7"))]] ["c"]) =
      List.lookup "c" (analyzeDataTypes jsDateParse
        [[("c", none)], [("c", some (.str "7"))], [("c", some (.num 3))]] ["c"]) :=
  ⟨by decide, by decide,
   typeInference_examples_amended.1 jsDateParse
     [[("c", some (.str "7"))]]
     [[("c", none)], [("c", some (.str "7"))], [("c", some (.num 3))]]
     ["c"] ["c"] "c" (by decide) (by decide) (by decide)⟩

/-- Helper: on every upload with a selected file, the result carries the
new file name and no report, in every branch of the handler. -/
theorem handleFileUpload_fileName_report (st : AppState) (name : String) (fd : FileData) :
    (handleFileUpload st (some (name, fd))).fileName = name ∧
    (handleFileUpload st (some (name, fd))).report = none := by
  obtain ⟨csv, sheet⟩ := fd
  unfold handleFileUpload
  dsimp only
  by_cases h1 : fileExtension name = "csv"
  · cases csv <;> simp [h1]
  · by_cases h2 : fileExtension name = "xlsx" ∨ fileExtension name = "xls"
    · cases sheet with
      | sheetRows rows =>
        by_cases hr : rows.length > 0 <;> simp [h1, h2, hr]
      | readFailure m => simp [h1, h2]
    · simp [h1, h2]

/-- C6: uploading a file whose extension is not csv, xlsx or xls sets the
unsupported-format error ("Please upload a CSV, XLS, or XLSX file") and
leaves the previously loaded dataset rows and column list unchanged — no
dataset is produced or replaced. -/
theorem upload_unsupported_extension_error (st : AppState) (name : String)
    (fd : FileData)
    (hext : fileExtension name ∉ (["csv", "xlsx", "xls"] : List String)) :
    (handleFileUpload st (some (name, fd))).error =
      some "Please upload a CSV, XLS, or XLSX file" ∧
    (handleFileUpload st (some (name, fd))).data = st.data ∧
    (handleFileUpload st (some (name, fd))).headers = st.headers := by
  obtain ⟨h1, h2, h3⟩ : ¬fileExtension name = "csv" ∧
      ¬fileExtension name = "xlsx" ∧ ¬fileExtension name = "xls" := by
    simpa using hext
  simp [handleFileUpload, h1, h2, h3]

/-- Witness for C6: a ".txt" upload onto a loaded state. -/
theorem upload_unsupported_extension_error_witness :
    fileExtension "notes.txt" ∉ (["csv", "xlsx", "xls"] : List String) ∧
    (handleFileUpload exState (some ("notes.txt", exFileData))).error =
      some "Please upload a CSV, XLS, or XLSX file" ∧
    (handleFileUpload exState (some ("notes.txt", exFileData))).data = exState.data :=
  ⟨by decide,
   (upload_unsupported_extension_error exState "notes.txt" exFileData (by decide)).1,
   (upload_unsupported_extension_error exState "notes.txt" exFileData (by decide)).2.1⟩

/-- C7: requesting analysis with an absent or empty dataset only sets the
no-data error: the result is the input state with the error replaced, the
report is unchanged, and the outcome is independent of the network
exchange — no network call is observed. -/
theorem analyze_no_data_guard (dp : String → Bool) (st : AppState)
    (isReg : Bool) (net : NetOutcome)
    (hnd : st.data = none ∨ st.data = some []) :
    analyzeData dp st isReg net = { st with error := some "No data to analyze" } ∧
    (analyzeData dp st isReg net).report = st.report ∧
    (∀ net', analyzeData dp st isReg net' = analyzeData dp st isReg net) := by
  have key : ∀ n : NetOutcome,
      analyzeData dp st isReg n = { st with error := some "No data to analyze" } := by
    intro n
    rcases hnd with h | h <;> simp [analyzeData, h]
  refine ⟨key net, ?_, fun net' => (key net').trans (key net).symm⟩
  rw [key net]

/-- Witness for C7: analysis with no dataset loaded. -/
theorem analyze_no_data_guard_witness :
    analyzeData jsDateParse { exState with data := none } false (.response none) =
      { { exState with data := none } with error := some "No data to analyze" } :=
  (analyze_no_data_guard jsDateParse { exState with data := none } false
    (.response none) (Or.inl rfl)).1

/-- C8: on a regeneration (or initial) request with data loaded, a
successful exchange — a response whose content has a first block — stores
that block's text as the report and clears the pending refinement
directive; a failed exchange — a response with no usable content, or a
transport error — leaves the directive exactly as the caller supplied it. -/
theorem regenerate_directive_clear_or_retain (dp : String → Bool)
    (st : AppState) (isReg : Bool) (net : NetOutcome) (d : List Row)
    (hd : st.data = some d) (hne : d ≠ []) :
    (∀ (b : ContentBlock) (rest : List ContentBlock),
        net = .response (some (b :: rest)) →
        (analyzeData dp st isReg net).regeneratePrompt = "" ∧
        (analyzeData dp st isReg net).report = some b.text) ∧
    ((net = .response none ∨ net = .response (some []) ∨
        (∃ m, net = .throwsErr m)) →
      (analyzeData dp st isReg net).regeneratePrompt = st.regeneratePrompt) := by
  have hlen : ¬d.length = 0 := by
    simpa using hne
  constructor
  · rintro b rest rfl
    constructor <;> simp [analyzeData, hd, hlen]
  · rintro (rfl | rfl | ⟨m, rfl⟩) <;> simp [analyzeData, hd, hlen]

/-- Witness for C8: a successful and a failed exchange on a loaded state
with a pending directive. -/
theorem regenerate_directive_clear_or_retain_witness :
    (analyzeData jsDateParse exState true
        (.response (some [{ blockType := "text", text := "new report" }]))).regeneratePrompt
      = "" ∧
    (analyzeData jsDateParse exState true
        (.throwsErr "network down")).regeneratePrompt = exState.regeneratePrompt :=
  ⟨((regenerate_directive_clear_or_retain jsDateParse exState true
      (.response (some [{ blockType := "text", text := "new report" }]))
      [[("c", some (.num 1))]] rfl (by decide)).1
      { blockType := "text", text := "new report" } [] rfl).1,
   (regenerate_directive_clear_or_retain jsDateParse exState true
      (.throwsErr "network down") [[("c", some (.num 1))]] rfl (by decide)).2
      (Or.inr (Or.inr ⟨"network down", rfl⟩))⟩

/-- C9: every upload attempt with a selected file first replaces the stored
file name and clears both the current error and the currently held report:
the result carries the new name and no report, the outcome is independent
of the previous file name, error and report, and a failed (unsupported
extension) upload still ends with no report while the dataset itself is
left unchanged. -/
theorem upload_resets_fileName_error_report (st : AppState) (name : String)
    (fd : FileData) (f0 : String) (e0 r0 : Option String) :
    (handleFileUpload st (some (name, fd))).fileName = name ∧
    (handleFileUpload st (some (name, fd))).report = none ∧
    handleFileUpload { st with fileName := f0, error := e0, report := r0 }
        (some (name, fd)) = handleFileUpload st (some (name, fd)) ∧
    (fileExtension name ∉ (["csv", "xlsx", "xls"] : List String) →
      (handleFileUpload st (some (name, fd))).data = st.data ∧
      (handleFileUpload st (some (name, fd))).report = none) := by
  refine ⟨(handleFileUpload_fileName_report st name fd).1,
          (handleFileUpload_fileName_report st name fd).2, rfl, ?_⟩
  intro hext
  obtain ⟨h1, h2, h3⟩ : ¬fileExtension name = "csv" ∧
      ¬fileExtension name = "xlsx" ∧ ¬fileExtension name = "xls" := by
    simpa using hext
  exact ⟨by simp [handleFileUpload, h1, h2, h3],
         (handleFileUpload_fileName_report st name fd).2⟩

/-- Witness for C9: a failed ".txt" upload after a report was held. -/
theorem upload_resets_fileName_error_report_witness :
    (handleFileUpload exState (some ("notes.txt", exFileDataEmptySheet))).fileName =
      "notes.txt" ∧
    (handleFileUpload exState (some ("notes.txt", exFileDataEmptySheet))).report = none ∧
    (handleFileUpload exState (some ("notes.txt", exFileDataEmptySheet))).data =
      exState.data :=
  ⟨(upload_resets_fileName_error_report exState "notes.txt" exFileDataEmptySheet
      "x" none none).1,
   (upload_resets_fileName_error_report exState "notes.txt" exFileDataEmptySheet
      "x" none none).2.1,
   ((upload_resets_fileName_error_report exState "notes.txt" exFileDataEmptySheet
      "x" none none).2.2.2 (by decide)).1⟩

/-- C10: uploading a spreadsheet whose first sheet yields zero row records
is silently ignored: dataset and column list keep their previous values and
no error is reported (and no report is held, the name having been stored),
so an empty spreadsheet is neither a parse error nor a successful
(re)load. -/
theorem upload_empty_sheet_ignored (st : AppState) (name : String) (fd : FileData)
    (hext : fileExtension name = "xlsx" ∨ fileExtension name = "xls")
    (hsheet : fd.sheet = .sheetRows []) :
    (handleFileUpload st (some (name, fd))).data = st.data ∧
    (handleFileUpload st (some (name, fd))).headers = st.headers ∧
    (handleFileUpload st (some (name, fd))).error = none ∧
    (handleFileUpload st (some (name, fd))).report = none ∧
    (handleFileUpload st (some (name, fd))).fileName = name := by
  have h1 : ¬fileExtension name = "csv" := by
    rcases hext with h | h <;> rw [h] <;> decide
  simp [handleFileUpload, h1, hext, hsheet]

/-- Witness for C10: an empty ".xlsx" upload onto a loaded state. -/
theorem upload_empty_sheet_ignored_witness :
    (fileExtension "book.xlsx" = "xlsx" ∨ fileExtension "book.xlsx" = "xls") ∧
    (handleFileUpload exState (some ("book.xlsx", exFileDataEmptySheet))).data =
      exState.data ∧
    (handleFileUpload exState (some ("book.xlsx", exFileDataEmptySheet))).error = none :=
  ⟨Or.inl (by decide),
   (upload_empty_sheet_ignored exState "book.xlsx" exFileDataEmptySheet
      (Or.inl (by decide)) rfl).1,
   (upload_empty_sheet_ignored exState "book.xlsx" exFileDataEmptySheet
      (Or.inl (by decide)) rfl).2.2.1⟩

/-- Helper: splitting at a separator that does not occur yields the single
original line. -/
theorem splitChar_eq_self (sep : Char) (l : List Char) (h : sep ∉ l) :
    splitChar sep l = [l] := by
  induction l with
  | nil => rfl
  | cons c rest ih =>
    have hc : ¬c = sep := by
      rintro rfl
      exact h (List.mem_cons_self _ _)
    have hrest : sep ∉ rest := fun hm => h (List.mem_cons_of_mem _ hm)
    simp [splitChar, hc, ih hrest]

/-- Helper: a heading line pass leaves a line with no hash character
unchanged. -/
theorem headingLine_no_hash (m openTag closeTag line : List Char)
    (h : '#' ∉ line) :
    headingLine ('#' :: m) openTag closeTag line = line := by
  unfold headingLine
  rw [if_neg]
  intro hpre
  cases line with
  | nil => simp [List.isPrefixOf] at hpre
  | cons c rest =>
    rw [List.cons_append] at hpre
    simp only [List.isPrefixOf, Bool.and_eq_true, beq_iff_eq] at hpre
    exact h (hpre.1 ▸ List.mem_cons_self _ _)

/-- Helper: a heading pass leaves text with no hash and no newline
unchanged. -/
theorem headingPass_no_tokens (m openTag closeTag : List Char)
    (s : List Char) (hh : '#' ∉ s) (hn : '\n' ∉ s) :
    headingPass ('#' :: m) openTag closeTag s = s := by
  unfold headingPass
  rw [splitChar_eq_self _ _ hn]
  simp [headingLine_no_hash _ _ _ _ hh, joinNl]

/-- Helper: the fuelled delimiter scan leaves text without the delimiter's
first character unchanged, at any fuel. -/
theorem replDelimF_no_delim (c0 : Char) (dt openTag closeTag : List Char)
    (fuel : Nat) (s : List Char) (h : c0 ∉ s) :
    replDelimF (c0 :: dt) openTag closeTag fuel s = s := by
  induction fuel generalizing s with
  | zero => cases s <;> rfl
  | succ n ih =>
    cases s with
    | nil => rfl
    | cons c rest =>
      have hc : ¬c = c0 := by
        rintro rfl
        exact h (List.mem_cons_self _ _)
      have hrest : c0 ∉ rest := fun hm => h (List.mem_cons_of_mem _ hm)
      have hbeq : (c0 == c) = false := beq_eq_false_iff_ne.mpr fun hq => hc hq.symm
      simp [replDelimF, List.isPrefixOf, hbeq, ih rest hrest]

/-- Helper: a delimiter-pair pass leaves text without the delimiter's first
character unchanged. -/
theorem replDelim_no_delim (c0 : Char) (dt openTag closeTag : List Char)
    (s : List Char) (h : c0 ∉ s) :
    replDelim (c0 :: dt) openTag closeTag s = s :=
  replDelimF_no_delim c0 dt openTag closeTag s.length s h

/-- Helper: the paragraph pass leaves text with no newline unchanged. -/
theorem parRepl_no_nl (s : List Char) (h : '\n' ∉ s) : parRepl s = s := by
  induction s with
  | nil => rfl
  | cons c rest ih =>
    have hc : ¬c = '\n' := by
      rintro rfl
      exact h (List.mem_cons_self _ _)
    have hrest : '\n' ∉ rest := fun hm => h (List.mem_cons_of_mem _ hm)
    cases rest with
    | nil => rfl
    | cons c2 rest2 =>
      have hcc : ¬(c = '\n' ∧ c2 = '\n') := fun hp => hc hp.1
      simp only [parRepl, if_neg hcc]
      rw [ih hrest]

/-- Helper: the line-break pass leaves text with no newline unchanged. -/
theorem brRepl_no_nl (s : List Char) (h : '\n' ∉ s) : brRepl s = s := by
  induction s with
  | nil => rfl
  | cons c rest ih =>
    have hc : ¬c = '\n' := by
      rintro rfl
      exact h (List.mem_cons_self _ _)
    simp [brRepl, hc, ih fun hm => h (List.mem_cons_of_mem _ hm)]

/-- C4: rendering "# Title\n\nSome **bold** and *italic* text." yields a
level-1 heading wrapping exactly "Title" (marker and its one space
stripped), a strong span wrapping exactly "bold", an italic span wrapping
exactly "italic", and the paragraph boundary between the heading and the
sentence.  The further conjuncts attest the pass ordering behaviourally: a
"### " line becomes a level-3 heading (the most-specific marker is tried
first, so the level-1 pass does not consume its prefix), and a
double-delimited span becomes strong emphasis (double emphasis is converted
before single emphasis can split its delimiters). -/
theorem marked_roundtrip_scenario :
    marked "# Title\n\nSome **bold** and *italic* text." =
      "<h1>Title</h1></p><p>Some <strong>bold</strong> and <em>italic</em> text." ∧
    marked "### x" = "<h3>x</h3>" ∧
    marked "**b**" = "<strong>b</strong>" := by
  decide

/-- C5 counterexample: on the plain markup-free input "hello" the renderer
returns "hello" unchanged, which is not a paragraph-wrapped copy of the
input — the renderer never wraps plain text in a paragraph element. -/
theorem marked_not_paragraph_wrapped :
    ('#' ∉ "hello".toList) ∧ ('*' ∉ "hello".toList) ∧ ('\n' ∉ "hello".toList) ∧
    marked "hello" = "hello" ∧
    marked "hello" ≠ specParagraphWrapped "hello" := by
  decide

/-- C5 (amended): for every input containing no markup tokens (no hash, no
emphasis delimiter, no line break), the renderer returns the input
unchanged — with no heading, emphasis or paragraph artifacts — and
rendering is idempotent on such text. -/
theorem marked_plain_text_identity (s : String)
    (hh : '#' ∉ s.toList) (hs : '*' ∉ s.toList) (hn : '\n' ∉ s.toList) :
    marked s = s ∧ marked (marked s) = marked s := by
  have key : marked s = s := by
    simp only [marked]
    rw [headingPass_no_tokens _ _ _ _ hh hn,
        headingPass_no_tokens _ _ _ _ hh hn,
        headingPass_no_tokens _ _ _ _ hh hn,
        replDelim_no_delim _ _ _ _ _ hs,
        replDelim_no_delim _ _ _ _ _ hs,
        parRepl_no_nl _ hn, brRepl_no_nl _ hn]
    rfl
  refine ⟨key, ?_⟩
  rw [key]
  exact key

/-- Witness for C5 at the concrete plain input "hello". -/
theorem marked_plain_text_identity_witness :
    ('#' ∉ "hello world".toList) ∧ ('*' ∉ "hello world".toList) ∧
    ('\n' ∉ "hello world".toList) ∧ marked "hello world" = "hello world" :=
  ⟨by decide, by decide, by decide,
   (marked_plain_text_identity "hello world" (by decide) (by decide) (by decide)).1⟩

end ReportGen
